import Mathlib

/-!
Verification development for the cross-context state synchronization and
trigger-orchestration layer of the "feedback-loop" browser game.

Shallow embedding of:
  * `state.js`   — the localStorage-backed shared state store
                   (`getState`, `setState`, `getTabState`, `updateTabState`,
                   `resetState`, `_broadcast`, `defaultState`);
  * `engine/channel.js` — the BroadcastChannel message bus with its
                   localStorage fallback transport (`send`, `onMessage`,
                   `lsFallbackPost`, `lsFallbackListen`);
  * the per-level trigger automaton fragments exercised by the claims
    (`levels/level1.js` BACKTRACK_TRIGGER handler, `placeBonusSymbol`,
    init-mode selection, floor-symbol / mind-fragment collection;
    `levels/level3.js` backtrack fire; `levels/level4.js` init state
    write and fragment collection).

JavaScript objects are modelled as Lean structures whose per-tab records
use `Option` fields (a JS object key may be absent); `tabs` is an
insertion-ordered association list mirroring JS property tables.  The
persisted localStorage slot is modelled by `StoredVal`: absent, present
but JSON-unparsable, or present and parsed.  A parsed value is either a
structurally valid game document or some other JSON value (`nonDoc`),
since `JSON.parse` accepts values that do not match the schema.
`localStorage.setItem` may throw (quota exceeded); operations that can
observe such a throw return `Except JsErr`.  JSON serialisation followed
by parsing is modelled as the identity on parsed values.
-/

-- ══════════════════════════════════════════════════════════════════════
-- Data model (state.js defaultState schema, §"Default state schema")
-- ══════════════════════════════════════════════════════════════════════

/-- A per-tab record.  Every field is optional because a JS object may
lack any of these keys; `defaultState` populates a specific subset per
tab, and `updateTabState` shallow-merges partial records. -/
structure TabRecord where
  visitCount : Option Nat := none
  state : Option String := none
  puzzleSolved : Option Bool := none
  symbolsFound : Option (List String) := none
  floorRevealed : Option Bool := none
  backtrackedTo1 : Option Bool := none
  fragmentsCollected : Option (List String) := none
  bonusSymbolAvailable : Option Bool := none
  bonusSymbol : Option Bool := none
  mindComplete : Option Bool := none
  deriving DecidableEq

/-- JS `tabs` object — insertion-ordered map from tab-id key to record, as a JS
object property table. -/
abbrev TabMap := List (String × TabRecord)

/-- JS property lookup `m[k]` (returns `undefined` → `none` when absent). -/
def lookupTab : TabMap → String → Option TabRecord
  | [], _ => none
  | (k', r') :: rest, k => if k' = k then some r' else lookupTab rest k

/-- JS property assignment `m[k] = r`: overwrites in place, appends when
the key is new (JS objects keep insertion order). -/
def insertTab : TabMap → String → TabRecord → TabMap
  | [], k, r => [(k, r)]
  | (k', r') :: rest, k, r =>
      if k' = k then (k', r) :: rest else (k', r') :: insertTab rest k r

/-- JS key override: a key present in the update wins over the old value. -/
def jsOverride {α : Type} : Option α → Option α → Option α
  | some x, _ => some x
  | none, o => o

/-- JS shallow merge `{ ...old, ...updates }` on a tab record; when the old
record is absent (`state.tabs[id]` was `undefined`) the spread of
`undefined` contributes nothing and the result is exactly `updates`. -/
def mergeTab (old : Option TabRecord) (updates : TabRecord) : TabRecord :=
  match old with
  | none => updates
  | some r =>
      { visitCount := jsOverride updates.visitCount r.visitCount
        state := jsOverride updates.state r.state
        puzzleSolved := jsOverride updates.puzzleSolved r.puzzleSolved
        symbolsFound := jsOverride updates.symbolsFound r.symbolsFound
        floorRevealed := jsOverride updates.floorRevealed r.floorRevealed
        backtrackedTo1 := jsOverride updates.backtrackedTo1 r.backtrackedTo1
        fragmentsCollected := jsOverride updates.fragmentsCollected r.fragmentsCollected
        bonusSymbolAvailable := jsOverride updates.bonusSymbolAvailable r.bonusSymbolAvailable
        bonusSymbol := jsOverride updates.bonusSymbol r.bonusSymbol
        mindComplete := jsOverride updates.mindComplete r.mindComplete }

/-- The `player` record. -/
structure Player where
  hasFlashlight : Bool
  codeFragments : List String
  mindFragments : List String
  deriving DecidableEq

/-- The `narrative` record. -/
structure Narrative where
  shown : List String
  deriving DecidableEq

/-- The `meta` record. -/
structure Meta where
  currentTab : Option Nat
  highestTabUnlocked : Nat
  gameComplete : Bool
  actTwoComplete : Bool
  deriving DecidableEq

/-- The root game-state document. -/
structure GameState where
  tabs : TabMap
  player : Player
  narrative : Narrative
  meta : Meta
  deriving DecidableEq

/-- Embeds `defaultState()` from state.js. -/
def defaultState : GameState :=
  { tabs :=
      [ ("1", { visitCount := some 0, state := some "unvisited",
                puzzleSolved := some false, symbolsFound := some [],
                floorRevealed := some false })
      , ("2", { visitCount := some 0, state := some "unvisited",
                puzzleSolved := some false, symbolsFound := some [] })
      , ("3", { visitCount := some 0, state := some "unvisited",
                puzzleSolved := some false, backtrackedTo1 := some false })
      , ("4", { visitCount := some 0, state := some "unvisited",
                fragmentsCollected := some [] }) ]
    player := { hasFlashlight := false, codeFragments := [], mindFragments := [] }
    narrative := { shown := [] }
    meta := { currentTab := none, highestTabUnlocked := 1,
              gameComplete := false, actTwoComplete := false } }

-- ══════════════════════════════════════════════════════════════════════
-- Persisted store (state.js)
-- ══════════════════════════════════════════════════════════════════════

/-- Result of `JSON.parse` on a present, parsable persisted value: either a
structurally valid game document, or some other JSON value (for example a
bare number) — `JSON.parse` does not validate the schema. -/
inductive ParsedVal where
  | doc (s : GameState)
  | nonDoc (n : Nat)
  deriving DecidableEq

/-- The localStorage slot under the state key: absent, present but
JSON-unparsable (`JSON.parse` throws), or present and parsable. -/
inductive StoredVal where
  | absent
  | corrupt
  | json (v : ParsedVal)
  deriving DecidableEq

/-- Exceptions the embedded operations can observe: a storage quota /
write failure thrown by `localStorage.setItem`, or a `TypeError` (thrown
explicitly by `onMessage`, or by property access on a non-object). -/
inductive JsErr where
  | quota
  | typeError
  deriving DecidableEq

/-- Payload of a message envelope.  One variant per payload shape the
source constructs, plus `raw` covering arbitrary other payload objects. -/
inductive Payload where
  | stateDoc (v : ParsedVal)
  | backtrack (targetTab : Int) (reason : Option String)
  | completed (completedTab : Int)
  | fromTabP (n : Int)
  | emptyP
  | raw (n : Nat)
  deriving DecidableEq

/-- The envelope wire shape `{ type, fromTab, payload }`. -/
structure Envelope where
  type : String
  fromTab : Option Int
  payload : Payload
  deriving DecidableEq

/-- Accessor `msg.payload?.targetTab` (`undefined` → `none` for non-backtrack shapes). -/
def Payload.targetTab : Payload → Option Int
  | .backtrack t _ => some t
  | _ => none

/-- Accessor `msg.payload?.reason`. -/
def Payload.reason : Payload → Option String
  | .backtrack _ r => r
  | _ => none

/-- Accessor `msg.payload?.completedTab`. -/
def Payload.completedTabF : Payload → Option Int
  | .completed t => some t
  | _ => none

/-- The world one execution context's state module sees: the persisted
slot, whether `localStorage.setItem` currently fails (quota exceeded),
whether state.js's own `BroadcastChannel` construction succeeded
(`_channel !== null`), and the envelopes `_broadcast` has posted. -/
structure StoreWorld where
  val : StoredVal
  writeFails : Bool
  hasChannel : Bool
  sent : List Envelope
  deriving DecidableEq

/-- Embeds `localStorage.setItem(STORAGE_KEY, JSON.stringify(v))` — throws on
quota failure, otherwise replaces the slot.  state.js never wraps this
call in try/catch. -/
def setItemW (w : StoreWorld) (v : ParsedVal) : Except JsErr StoreWorld :=
  if w.writeFails then .error .quota else .ok { w with val := .json v }

/-- Embeds `_broadcast(fromTab, payload)` from state.js: posts a STATE_CHANGE
envelope on its local BroadcastChannel; silently does nothing when the
channel is unavailable — there is no fallback transport here. -/
def broadcastW (w : StoreWorld) (fromTab : Option Int) (payload : ParsedVal) : StoreWorld :=
  if w.hasChannel then
    { w with sent := w.sent ++ [{ type := "STATE_CHANGE", fromTab := fromTab,
                                  payload := .stateDoc payload }] }
  else w

/-- Embeds `getState()`: parse the slot; when absent or unparsable, write the
defaults and return them.  The recovery write can itself throw. -/
def getStateW (w : StoreWorld) : Except JsErr (ParsedVal × StoreWorld) :=
  match w.val with
  | .json v => .ok (v, w)
  | _ => do
      let w' ← setItemW w (.doc defaultState)
      .ok (.doc defaultState, w')

/-- Embeds `setState(updater, fromTab)`: read, apply the updater, persist,
broadcast, return the new value.  The updater is modelled as possibly
throwing (a document updater applied to a non-document value would throw
a `TypeError` in JS). -/
def setStateW (updater : ParsedVal → Except JsErr ParsedVal) (fromTab : Option Int)
    (w : StoreWorld) : Except JsErr (ParsedVal × StoreWorld) := do
  let (current, w1) ← getStateW w
  let next ← updater current
  let w2 ← setItemW w1 next
  .ok (next, broadcastW w2 fromTab next)

/-- Lift a pure document updater to the value level; applying it to a
non-document value is the JS `TypeError` of accessing document fields on
a non-object. -/
def liftUpd (f : GameState → GameState) : ParsedVal → Except JsErr ParsedVal
  | .doc s => .ok (.doc (f s))
  | .nonDoc _ => .error .typeError

/-- The document-level effect of `updateTabState`'s updater:
`state.tabs[id] = { ...state.tabs[id], ...updates }`. -/
def applyTabUpdate (s : GameState) (key : String) (updates : TabRecord) : GameState :=
  { s with tabs := insertTab s.tabs key (mergeTab (lookupTab s.tabs key) updates) }

/-- Embeds `updateTabState(tabId, updates)` (the spec's `mergeField`): shallow-
merge into `state.tabs[String(tabId)]` via `setState`, passing `tabId`
as the broadcast's `fromTab`. -/
def updateTabStateW (tabId : Int) (updates : TabRecord) (w : StoreWorld) :
    Except JsErr (ParsedVal × StoreWorld) :=
  setStateW (liftUpd (fun s => applyTabUpdate s (toString tabId) updates)) (some tabId) w

/-- Embeds `getTabState(tabId)`: `getState().tabs[String(tabId)] ?? null`.
Reading `.tabs[...]` of a non-document value throws. -/
def getTabStateW (tabId : Int) (w : StoreWorld) :
    Except JsErr (Option TabRecord × StoreWorld) := do
  let (v, w1) ← getStateW w
  match v with
  | .doc s => .ok (lookupTab s.tabs (toString tabId), w1)
  | .nonDoc _ => .error .typeError

/-- Embeds `resetState()`: write defaults (uncaught write), broadcast them with
`fromTab = null`, return them. -/
def resetStateW (w : StoreWorld) : Except JsErr (ParsedVal × StoreWorld) := do
  let w1 ← setItemW w (.doc defaultState)
  .ok (.doc defaultState, broadcastW w1 none (.doc defaultState))

-- ══════════════════════════════════════════════════════════════════════
-- Message bus (engine/channel.js)
-- ══════════════════════════════════════════════════════════════════════

/-- The fallback's serialized slot value `{ ...envelope, _nonce }`: the
envelope's own keys plus the per-send nonce. -/
structure Wrapped where
  env : Envelope
  nonce : Nat
  deriving DecidableEq

/-- One context's channel module: whether the host supports
`BroadcastChannel`, the envelopes posted on the primary transport, the
fallback localStorage slot (`LS_KEY`), and whether fallback writes hit
the quota. -/
structure ChanWorld where
  hasBroadcastChannel : Bool
  bcPosted : List Envelope
  lsSlot : Option Wrapped
  quotaFails : Bool
  deriving DecidableEq

/-- The observable event a send produces for other contexts: a
BroadcastChannel message carrying the envelope, or a `storage` event
carrying the new serialized slot value. -/
inductive TransportEvent where
  | bc (env : Envelope)
  | storage (w : Wrapped)
  deriving DecidableEq

/-- Embeds `lsFallbackPost(envelope)`: wrap with a fresh nonce and write to the
well-known key; a quota failure is caught and silently dropped. -/
def lsFallbackPost (env : Envelope) (nonce : Nat) (w : ChanWorld) :
    ChanWorld × Option TransportEvent :=
  if w.quotaFails then (w, none)
  else ({ w with lsSlot := some { env := env, nonce := nonce } },
        some (.storage { env := env, nonce := nonce }))

/-- Embeds `send(type, payload, fromTab)`: build the envelope and publish it on
the primary transport when supported, otherwise on the fallback.  The
`nonce` argument models `Date.now() + Math.random()`.  (Unknown types
are merely logged, which has no observable effect here.) -/
def channelSendEv (type : String) (payload : Payload) (fromTab : Option Int)
    (nonce : Nat) (w : ChanWorld) : ChanWorld × Option TransportEvent :=
  let env : Envelope := { type := type, fromTab := fromTab, payload := payload }
  if w.hasBroadcastChannel then
    ({ w with bcPosted := w.bcPosted ++ [env] }, some (.bc env))
  else
    lsFallbackPost env nonce w

/-- The fallback listener's handler: parse the storage event's new value
and strip the `_nonce` key before handing the message to the consumer. -/
def lsHandlerParse (w : Wrapped) : Envelope := w.env

/-- What a callback registered through `onMessage` in context
`receiver` receives from a single transport event produced by context
`sender`.  Host-platform semantics: both `BroadcastChannel` messages and
`storage` events fire only in contexts other than the one that produced
them, so the sender's own handler is never invoked. -/
def handlerReceives (sender receiver : Nat) (ev : Option TransportEvent) :
    List Envelope :=
  match ev with
  | none => []
  | some (.bc env) => if receiver = sender then [] else [env]
  | some (.storage w) => if receiver = sender then [] else [lsHandlerParse w]

/-- The argument passed to `onMessage`, as seen by its `typeof` check:
a function value (identified by id) or any non-function value. -/
inductive JsArg where
  | func (id : Nat)
  | nonFunc (tag : Nat)
  deriving DecidableEq

/-- Embeds `onMessage(callback)`: throws a `TypeError` when the argument is not
a function; re-registering an already-registered callback is a no-op;
otherwise the callback is attached (to whichever transport is active). -/
def onMessageRegister (cb : JsArg) (listeners : List Nat) :
    Except JsErr (List Nat) :=
  match cb with
  | .nonFunc _ => .error .typeError
  | .func id => if id ∈ listeners then .ok listeners else .ok (listeners ++ [id])

-- ══════════════════════════════════════════════════════════════════════
-- Level 1 trigger automaton (levels/level1.js)
-- ══════════════════════════════════════════════════════════════════════

/-- The closure-captured flags of one live level-1 context. -/
structure L1Flags where
  bonusSymbolPlaced : Bool
  bonusSymbolCollected : Bool
  entered3D : Bool
  deriving DecidableEq

/-- The flags a level-1 context computes on init from the persisted
document (`currentState.tabs['1']?.bonusSymbolAvailable === true`, etc.;
`entered3D` starts false). -/
def initialL1Flags (s : GameState) : L1Flags :=
  { bonusSymbolPlaced :=
      ((lookupTab s.tabs "1").bind TabRecord.bonusSymbolAvailable).getD false
    bonusSymbolCollected :=
      ((lookupTab s.tabs "1").bind TabRecord.bonusSymbol).getD false
    entered3D := false }

/-- Local rendering / DOM / audio side effects the level-1 handler fires
(collapsed to named markers; their internals are out of the layer). -/
inductive L1Effect where
  | placeBonus
  | cleanupFirstVisit
  | setupReturn
  | deferNarrator
  | enter3D
  deriving DecidableEq

/-- Embeds `placeBonusSymbol()`: bail out if the bonus was already collected
(flag loaded from the persisted `tabs['1'].bonusSymbol`); else mark it
placed, persist `bonusSymbolAvailable: true`, and set up the renderer. -/
def placeBonusW (fl : L1Flags) (w : StoreWorld) :
    Except JsErr (L1Flags × StoreWorld × List L1Effect) :=
  if fl.bonusSymbolCollected then .ok (fl, w, [])
  else do
    let (_, w') ← updateTabStateW 1 { bonusSymbolAvailable := some true } w
    .ok ({ fl with bonusSymbolPlaced := true }, w', [.placeBonus])

/-- The partial record `{ state: 'illuminated', floorRevealed: true }`
written by the BACKTRACK_TRIGGER handler. -/
def illumUpdate : TabRecord := { state := some "illuminated", floorRevealed := some true }

/-- Embeds `_enter3D`'s store write `updateTabState(1, { state: '3d' })`; when
Three.js is not loaded the function returns before writing. -/
def enter3DW (threeLoaded : Bool) (w : StoreWorld) :
    Except JsErr (StoreWorld × List L1Effect) :=
  if threeLoaded then do
    let (_, w') ← updateTabStateW 1 { state := some "3d" } w
    .ok (w', [.enter3D])
  else .ok (w, [])

/-- Embeds `tryEnter3D()`: once per context, re-read the store and enter 3D mode
when `meta.gameComplete` is set. -/
def tryEnter3DW (threeLoaded : Bool) (fl : L1Flags) (w : StoreWorld) :
    Except JsErr (L1Flags × StoreWorld × List L1Effect) :=
  if fl.entered3D then .ok (fl, w, [])
  else do
    let (v, w1) ← getStateW w
    match v with
    | .doc s =>
        if s.meta.gameComplete = true then do
          let (w2, es) ← enter3DW threeLoaded w1
          .ok ({ fl with entered3D := true }, w2, es)
        else .ok (fl, w1, [])
    | .nonDoc _ => .error .typeError

/-- The level-1 `channel.onMessage` handler (level1.js lines 417-472):
a BACKTRACK_TRIGGER targeting tab 1 either places the bonus symbol
(`reason: 'midpuzzle'`) or persists `state: 'illuminated'`, cleans up the
first-visit resources, runs `setupReturnVisit`, and defers the return
narrator line; a TAB_COMPLETED from tab 3 attempts the 3D transition. -/
def level1OnMessageW (threeLoaded : Bool) (msg : Envelope) (fl : L1Flags)
    (w : StoreWorld) : Except JsErr (L1Flags × StoreWorld × List L1Effect) := do
  let (fl1, w1, e1) ←
    if msg.type = "BACKTRACK_TRIGGER" ∧ msg.payload.targetTab = some 1 then
      if msg.payload.reason = some "midpuzzle" then
        placeBonusW fl w
      else do
        let (_, w') ← updateTabStateW 1 illumUpdate w
        .ok (fl, w', [.cleanupFirstVisit, .setupReturn, .deferNarrator])
    else .ok (fl, w, [])
  if msg.type = "TAB_COMPLETED" ∧ msg.payload.completedTabF = some 3 then do
    let (fl2, w2, e2) ← tryEnter3DW threeLoaded fl1 w1
    .ok (fl2, w2, e1 ++ e2)
  else .ok (fl1, w1, e1)

/-- The mode a freshly loading level-1 context selects. -/
inductive L1Mode where
  | threeD
  | returnVisit
  | firstVisit
  deriving DecidableEq

/-- Mode selection in `init` (level1.js lines 59-77 and 214): 3D when the
game is complete and `visitCount >= 2`; else the return visit when the
persisted tab-1 `state` is `'illuminated'`; else the first visit.
Reading `.state` of a missing tab-1 record would throw. -/
def level1InitMode (s : GameState) : Except JsErr L1Mode :=
  match lookupTab s.tabs "1" with
  | none => .error .typeError
  | some tabData =>
      if s.meta.gameComplete = true ∧ 2 ≤ tabData.visitCount.getD 0 then .ok .threeD
      else if tabData.state = some "illuminated" then .ok .returnVisit
      else .ok .firstVisit

/-- A level-1 context loading: `const currentState = state.getState()`,
then mode selection on the document read. -/
def level1Load (w : StoreWorld) : Except JsErr (L1Mode × StoreWorld) := do
  let (v, w1) ← getStateW w
  match v with
  | .doc s => do
      let m ← level1InitMode s
      .ok (m, w1)
  | .nonDoc _ => .error .typeError

/-- Embeds `setupReturnVisit`'s floor-symbol collection updater (level1.js lines
171-176): append the symbol to `player.codeFragments` unless already
present. -/
def collectFloorSymbolUpd (sym : String) (s : GameState) : GameState :=
  if sym ∈ s.player.codeFragments then s
  else { s with player := { s.player with
           codeFragments := s.player.codeFragments ++ [sym] } }

/-- The 3D mind-fragment collection updater (level1.js lines 827-833):
append the id to `player.mindFragments` unless already present.  (The
source's guard re-creating a missing `mindFragments` array collapses
under the schema-typed player record.) -/
def collectMindFragmentUpd (fid : String) (s : GameState) : GameState :=
  if fid ∈ s.player.mindFragments then s
  else { s with player := { s.player with
           mindFragments := s.player.mindFragments ++ [fid] } }

-- ══════════════════════════════════════════════════════════════════════
-- Level 3 and level 4 fragments (levels/level3.js, levels/level4.js)
-- ══════════════════════════════════════════════════════════════════════

/-- Level 3's backtrack fire, store half (level3.js line 253):
`state.updateTabState(3, { backtrackedTo1: true })`. -/
def level3BacktrackStoreWrite (w : StoreWorld) : Except JsErr (ParsedVal × StoreWorld) :=
  updateTabStateW 3 { backtrackedTo1 := some true } w

/-- Level 3's backtrack fire, channel half (level3.js line 256): the
envelope built by `channel.send('BACKTRACK_TRIGGER', { targetTab: 1 }, 3)`. -/
def backtrackEnvelopeTo1 : Envelope :=
  { type := "BACKTRACK_TRIGGER", fromTab := some 3, payload := .backtrack 1 none }

/-- Level 4's unconditional init write (level4.js line 22):
`state.updateTabState(4, { state: 'visited' })`. -/
def level4InitWrite (w : StoreWorld) : Except JsErr (ParsedVal × StoreWorld) :=
  updateTabStateW 4 { state := some "visited" } w

/-- Level 4's memory-fragment collection updater (level4.js lines
394-401): re-create a missing tab-4 record, ensure the collection array,
append the id unless already present. -/
def level4CollectFragmentUpd (fid : String) (s : GameState) : GameState :=
  let t := (lookupTab s.tabs "4").getD
    { visitCount := some 0, state := some "visited", fragmentsCollected := some [] }
  let fc := t.fragmentsCollected.getD []
  let fc' := if fid ∈ fc then fc else fc ++ [fid]
  { s with tabs := insertTab s.tabs "4" { t with fragmentsCollected := some fc' } }

-- ══════════════════════════════════════════════════════════════════════
-- Phase order of the per-tab `state` field
-- ══════════════════════════════════════════════════════════════════════

/-- Index of a tab `state` value in the ordered phase set
`unvisited → visited → illuminated → 3d` (post-completion). -/
def phaseIdx : String → Option Nat
  | "unvisited" => some 0
  | "visited" => some 1
  | "illuminated" => some 2
  | "3d" => some 3
  | _ => none

/-- Phase of an optional `state` field (absent field → no phase). -/
def statePhase (o : Option String) : Option Nat := o.bind phaseIdx

/-- The tab-1 `state` value held by a world's persisted document, if any. -/
def docTab1State (w : StoreWorld) : Option String :=
  match w.val with
  | .json (.doc s) => (lookupTab s.tabs "1").bind TabRecord.state
  | _ => none

-- ══════════════════════════════════════════════════════════════════════
-- Derived scenario definitions
-- ══════════════════════════════════════════════════════════════════════

/-- A sequence of `setState` calls issued by a single context, in call
order (each call's broadcast and persisted write happen before the next
call starts, since each context is single-threaded). -/
def setStateList (us : List (GameState → GameState)) (w : StoreWorld) :
    Except JsErr StoreWorld :=
  match us with
  | [] => .ok w
  | u :: rest => do
      let (_, w') ← setStateW (liftUpd u) none w
      setStateList rest w'

/-- A document whose tab-1 record is in the `'visited'` phase (the shell
that performs the first-visit bookkeeping is outside src/, so the
scenario document is built by merging `state: 'visited'` over the
defaults). -/
def visitedTab1Doc : GameState :=
  applyTabUpdate defaultState "1" { state := some "visited" }

/-- A document whose tab-1 record has reached the post-completion `'3d'`
phase (written by `_enter3D`), with the illumination already applied. -/
def threeDTab1Doc : GameState :=
  applyTabUpdate defaultState "1"
    { visitCount := some 2, state := some "3d", floorRevealed := some true }

/-- A world persisting `threeDTab1Doc`, with succeeding writes. -/
def threeDWorld : StoreWorld :=
  { val := .json (.doc threeDTab1Doc), writeFails := false,
    hasChannel := false, sent := [] }

/-- A document on which the tab-1 illumination transition has already
been applied (`state: 'illuminated'`, `floorRevealed: true`). -/
def illumDoneDoc : GameState := applyTabUpdate defaultState "1" illumUpdate

/-- A world persisting `illumDoneDoc`, with succeeding writes. -/
def illumDoneWorld : StoreWorld :=
  { val := .json (.doc illumDoneDoc), writeFails := false,
    hasChannel := false, sent := [] }

/-- Fragments-collected list of tab 4 in a document (as level4.js reads
it: missing record or missing field count as empty). -/
def tab4Fragments (s : GameState) : List String :=
  ((lookupTab s.tabs "4").bind TabRecord.fragmentsCollected).getD []

-- ══════════════════════════════════════════════════════════════════════
-- Helper lemmas
-- ══════════════════════════════════════════════════════════════════════

theorem lookupTab_insertTab_self (m : TabMap) (k : String) (r : TabRecord) :
    lookupTab (insertTab m k r) k = some r := by
  induction m with
  | nil => simp [insertTab, lookupTab]
  | cons hd tl ih =>
      obtain ⟨k', r'⟩ := hd
      by_cases h : k' = k
      · simp [insertTab, lookupTab, h]
      · simp [insertTab, lookupTab, h, ih]

theorem lookupTab_insertTab_ne (m : TabMap) (k k₂ : String) (r : TabRecord)
    (h : k ≠ k₂) : lookupTab (insertTab m k r) k₂ = lookupTab m k₂ := by
  induction m with
  | nil => simp [insertTab, lookupTab, h]
  | cons hd tl ih =>
      obtain ⟨k', r'⟩ := hd
      by_cases h' : k' = k
      · subst h'
        simp [insertTab, lookupTab, h]
      · simp [insertTab, lookupTab, h']
        by_cases h'' : k' = k₂ <;> simp [h'', ih]

theorem insertTab_insertTab (m : TabMap) (k : String) (r r' : TabRecord) :
    insertTab (insertTab m k r) k r' = insertTab m k r' := by
  induction m with
  | nil => simp [insertTab]
  | cons hd tl ih =>
      obtain ⟨k₀, r₀⟩ := hd
      by_cases h : k₀ = k
      · simp [insertTab, h]
      · simp [insertTab, h, ih]

theorem jsOverride_self {α : Type} (a : Option α) : jsOverride a a = a := by
  cases a <;> rfl

theorem jsOverride_absorb {α : Type} (a b : Option α) :
    jsOverride a (jsOverride a b) = jsOverride a b := by
  cases a <;> rfl

theorem mergeTab_merge (o : Option TabRecord) (u : TabRecord) :
    mergeTab (some (mergeTab o u)) u = mergeTab o u := by
  cases o with
  | none =>
      show mergeTab (some u) u = u
      cases u
      simp [mergeTab, jsOverride_self]
  | some r =>
      cases u
      cases r
      simp [mergeTab, jsOverride_absorb]

/-- Writing the same shallow merge twice leaves the document where one
write left it. -/
theorem applyTabUpdate_idem (s : GameState) (k : String) (u : TabRecord) :
    applyTabUpdate (applyTabUpdate s k u) k u = applyTabUpdate s k u := by
  simp [applyTabUpdate, lookupTab_insertTab_self, mergeTab_merge, insertTab_insertTab]

theorem broadcastW_val (w : StoreWorld) (ft : Option Int) (v : ParsedVal) :
    (broadcastW w ft v).val = w.val := by
  simp only [broadcastW]
  split <;> rfl

theorem broadcastW_writeFails (w : StoreWorld) (ft : Option Int) (v : ParsedVal) :
    (broadcastW w ft v).writeFails = w.writeFails := by
  simp only [broadcastW]
  split <;> rfl

theorem broadcastW_sent (w : StoreWorld) (ft : Option Int) (v : ParsedVal) :
    (broadcastW w ft v).sent
      = w.sent ++ (if w.hasChannel then
          [{ type := "STATE_CHANGE", fromTab := ft, payload := .stateDoc v }] else []) := by
  simp only [broadcastW]
  split <;> simp_all

/-- Evaluation of `setState` with a pure document updater on a world whose
slot holds a valid document and whose writes succeed. -/
theorem setStateW_doc (f : GameState → GameState) (ft : Option Int)
    (w : StoreWorld) (s : GameState)
    (hval : w.val = .json (.doc s)) (hwf : w.writeFails = false) :
    setStateW (liftUpd f) ft w
      = .ok (.doc (f s),
             broadcastW { w with val := .json (.doc (f s)) } ft (.doc (f s))) := by
  cases w with
  | mk v wf hc st =>
      simp only at hval hwf
      subst hval hwf
      rfl

/-- Evaluation of `updateTabState` under the same conditions. -/
theorem updateTabStateW_doc (tabId : Int) (u : TabRecord)
    (w : StoreWorld) (s : GameState)
    (hval : w.val = .json (.doc s)) (hwf : w.writeFails = false) :
    updateTabStateW tabId u w
      = .ok (.doc (applyTabUpdate s (toString tabId) u),
             broadcastW { w with val := .json (.doc (applyTabUpdate s (toString tabId) u)) }
               (some tabId) (.doc (applyTabUpdate s (toString tabId) u))) := by
  exact setStateW_doc _ _ w s hval hwf

theorem applyTabUpdate_meta (s : GameState) (k : String) (u : TabRecord) :
    (applyTabUpdate s k u).meta = s.meta := rfl

theorem applyTabUpdate_player (s : GameState) (k : String) (u : TabRecord) :
    (applyTabUpdate s k u).player = s.player := rfl

theorem phaseIdx_le_three (x : String) (p : Nat) (h : phaseIdx x = some p) : p ≤ 3 := by
  unfold phaseIdx at h
  split at h <;> first
    | (injection h with h'; omega)
    | simp at h

theorem statePhase_le_three (o : Option String) (p : Nat)
    (h : statePhase o = some p) : p ≤ 3 := by
  cases o with
  | none => simp [statePhase] at h
  | some x => exact phaseIdx_le_three x p (by simpa [statePhase] using h)

theorem setStateW_quota (f : GameState → GameState) (ft : Option Int)
    (w : StoreWorld) (s : GameState)
    (hval : w.val = .json (.doc s)) (hwf : w.writeFails = true) :
    setStateW (liftUpd f) ft w = .error .quota := by
  cases w with
  | mk v wf hc st =>
      simp only at hval hwf
      subst hval hwf
      rfl

theorem updateTabStateW_quota (tabId : Int) (u : TabRecord)
    (w : StoreWorld) (s : GameState)
    (hval : w.val = .json (.doc s)) (hwf : w.writeFails = true) :
    updateTabStateW tabId u w = .error .quota :=
  setStateW_quota _ _ w s hval hwf

theorem resetStateW_quota (w : StoreWorld) (hwf : w.writeFails = true) :
    resetStateW w = .error .quota := by
  cases w with
  | mk v wf hc st =>
      simp only at hwf
      subst hwf
      rfl

-- ══════════════════════════════════════════════════════════════════════
-- Claim C4 — set(updater) persists, broadcasts, returns
-- ══════════════════════════════════════════════════════════════════════

/-- C4 counterexample: on a host without the primary transport
(`hasChannel = false`, i.e. `BroadcastChannel` construction failed),
`setState` persists the updated document and returns it but broadcasts
nothing at all — the resulting `sent` log is empty, whereas the claim
requires a STATE_CHANGE envelope on the fallback transport.  state.js's
`_broadcast` has no fallback path. -/
theorem c4_no_fallback_counterexample :
    setStateW (liftUpd id) none
      { val := .json (.doc defaultState), writeFails := false,
        hasChannel := false, sent := [] }
      = .ok (.doc defaultState,
             { val := .json (.doc defaultState), writeFails := false,
               hasChannel := false, sent := [] }) := rfl

/-- C4 (amended): every `set(updater)` call on a world holding a valid
document (with succeeding writes) persists the updater's result and
returns it; it broadcasts a STATE_CHANGE envelope whose payload is the
new document when the host supports the primary transport, and
broadcasts nothing otherwise (the store's broadcaster has no fallback
transport). -/
theorem c4_set_persists_broadcasts_returns (f : GameState → GameState)
    (ft : Option Int) (w : StoreWorld) (s : GameState)
    (hval : w.val = .json (.doc s)) (hwf : w.writeFails = false) :
    ∃ w', setStateW (liftUpd f) ft w = .ok (.doc (f s), w') ∧
      w'.val = .json (.doc (f s)) ∧
      w'.sent = w.sent ++ (if w.hasChannel then
        [{ type := "STATE_CHANGE", fromTab := ft,
           payload := .stateDoc (.doc (f s)) }] else []) := by
  refine ⟨_, setStateW_doc f ft w s hval hwf, ?_, ?_⟩
  · rw [broadcastW_val]
  · rw [broadcastW_sent]

/-- Witness for C4 (amended) at a concrete input with the primary
transport available. -/
theorem c4_witness :
    ∃ w', setStateW (liftUpd id) none
        { val := .json (.doc defaultState), writeFails := false,
          hasChannel := true, sent := [] }
        = .ok (.doc defaultState, w') ∧
      w'.val = .json (.doc defaultState) ∧
      w'.sent = [] ++ (if true then
        [{ type := "STATE_CHANGE", fromTab := none,
           payload := .stateDoc (.doc defaultState) }] else []) :=
  c4_set_persists_broadcasts_returns id none _ defaultState rfl rfl

-- ══════════════════════════════════════════════════════════════════════
-- Claim C5 — get() after absent/corrupted value
-- ══════════════════════════════════════════════════════════════════════

/-- C5 counterexample: (1) a persisted value that is valid JSON but not a
structurally valid document (a bare number) is returned as-is by
`getState` — the code only treats JSON-unparsable values as corrupt, so
the caller does not get the default document and the store is left
holding the non-document; (2) with an absent value and a failing
storage write, `getState` throws (the recovery `setItem` is not wrapped
in try/catch), contradicting "never throws to the caller". -/
theorem c5_schema_counterexample :
    (getStateW { val := .json (.nonDoc 42), writeFails := false,
                 hasChannel := true, sent := [] }
       = .ok (.nonDoc 42,
              { val := .json (.nonDoc 42), writeFails := false,
                hasChannel := true, sent := [] })
     ∧ ParsedVal.nonDoc 42 ≠ ParsedVal.doc defaultState)
    ∧ getStateW { val := .absent, writeFails := true,
                  hasChannel := true, sent := [] }
       = .error .quota :=
  ⟨⟨rfl, by simp⟩, rfl⟩

/-- C5 (amended): for a persisted value that is absent or JSON-unparsable,
and provided the recovery write succeeds, `get()` returns exactly the
default document and leaves the store holding exactly that default
(without throwing). -/
theorem c5_default_on_unparsable (w : StoreWorld)
    (h : w.val = .absent ∨ w.val = .corrupt) (hwf : w.writeFails = false) :
    getStateW w = .ok (.doc defaultState,
                       { w with val := .json (.doc defaultState) }) := by
  cases w with
  | mk v wf hc st =>
      simp only at h hwf
      subst hwf
      rcases h with h | h <;> (subst h; rfl)

/-- Witness for C5 (amended) at a concrete corrupted slot. -/
theorem c5_witness :
    getStateW { val := .corrupt, writeFails := false, hasChannel := false, sent := [] }
      = .ok (.doc defaultState,
             { val := .json (.doc defaultState), writeFails := false,
               hasChannel := false, sent := [] }) :=
  c5_default_on_unparsable _ (Or.inr rfl) rfl

-- ══════════════════════════════════════════════════════════════════════
-- Claim C6 — write failures silently dropped
-- ══════════════════════════════════════════════════════════════════════

/-- C6 counterexample: a write failure during `setState` is not dropped —
`localStorage.setItem` in state.js is not wrapped in try/catch, so the
quota exception propagates to the caller. -/
theorem c6_write_counterexample :
    setStateW (liftUpd id) none
      { val := .json (.doc defaultState), writeFails := true,
        hasChannel := true, sent := [] }
      = .error .quota := rfl

/-- C6 (amended): only the fallback transport's channel write
(`lsFallbackPost`) silently drops a write failure with no retry and no
error; write failures inside the store operations `set` / `mergeField` /
`reset` propagate the exception to the caller. -/
theorem c6_failure_semantics :
    (∀ (env : Envelope) (nonce : Nat) (cw : ChanWorld), cw.quotaFails = true →
       lsFallbackPost env nonce cw = (cw, none)) ∧
    (∀ (f : GameState → GameState) (ft : Option Int) (w : StoreWorld) (s : GameState),
       w.val = .json (.doc s) → w.writeFails = true →
       setStateW (liftUpd f) ft w = .error .quota) ∧
    (∀ (tabId : Int) (u : TabRecord) (w : StoreWorld) (s : GameState),
       w.val = .json (.doc s) → w.writeFails = true →
       updateTabStateW tabId u w = .error .quota) ∧
    (∀ (w : StoreWorld), w.writeFails = true → resetStateW w = .error .quota) := by
  refine ⟨?_, ?_, ?_, ?_⟩
  · intro env nonce cw hq
    simp [lsFallbackPost, hq]
  · exact fun f ft w s hval hwf => setStateW_quota f ft w s hval hwf
  · exact fun tabId u w s hval hwf => updateTabStateW_quota tabId u w s hval hwf
  · exact fun w hwf => resetStateW_quota w hwf

/-- Witness for C6 (amended) at concrete quota-exceeded worlds. -/
theorem c6_witness :
    lsFallbackPost { type := "PUZZLE_SOLVED", fromTab := some 2, payload := .emptyP } 9
        { hasBroadcastChannel := false, bcPosted := [], lsSlot := none, quotaFails := true }
      = ({ hasBroadcastChannel := false, bcPosted := [], lsSlot := none,
           quotaFails := true }, none)
    ∧ setStateW (liftUpd id) none
        { val := .json (.doc defaultState), writeFails := true,
          hasChannel := false, sent := [] } = .error .quota
    ∧ updateTabStateW 2 { puzzleSolved := some true }
        { val := .json (.doc defaultState), writeFails := true,
          hasChannel := false, sent := [] } = .error .quota
    ∧ resetStateW
        { val := .json (.doc defaultState), writeFails := true,
          hasChannel := false, sent := [] } = .error .quota :=
  ⟨c6_failure_semantics.1 _ 9 _ rfl,
   c6_failure_semantics.2.1 id none _ defaultState rfl rfl,
   c6_failure_semantics.2.2.1 2 _ _ defaultState rfl rfl,
   c6_failure_semantics.2.2.2 _ rfl⟩

-- ══════════════════════════════════════════════════════════════════════
-- Claim C7 — single-context writes fold in call order
-- ══════════════════════════════════════════════════════════════════════

/-- C7: for any sequence of `set(updater)` calls made by a single context
(whose storage writes succeed), the final persisted document equals the
left-fold of those updaters applied in call order — no write from that
context is lost. -/
theorem c7_single_context_fold (us : List (GameState → GameState))
    (s : GameState) (w : StoreWorld)
    (hval : w.val = .json (.doc s)) (hwf : w.writeFails = false) :
    ∃ w', setStateList us w = .ok w' ∧
      w'.val = .json (.doc (us.foldl (fun a f => f a) s)) := by
  induction us generalizing s w with
  | nil => exact ⟨w, rfl, by simpa using hval⟩
  | cons u rest ih =>
      have hstep : setStateList (u :: rest) w
          = setStateList rest
              (broadcastW { w with val := .json (.doc (u s)) } none (.doc (u s))) := by
        simp only [setStateList]
        rw [setStateW_doc u none w s hval hwf]
        rfl
      rw [hstep]
      have h1 : (broadcastW { w with val := .json (.doc (u s)) }
                   none (.doc (u s))).val = .json (.doc (u s)) := by
        rw [broadcastW_val]
      have h2 : (broadcastW { w with val := .json (.doc (u s)) }
                   none (.doc (u s))).writeFails = false := by
        rw [broadcastW_writeFails]
        exact hwf
      obtain ⟨w', hw', hval'⟩ := ih (u s) _ h1 h2
      exact ⟨w', hw', hval'⟩

/-- Witness for C7 at a concrete two-updater sequence. -/
theorem c7_witness :
    ∃ w', setStateList [collectFloorSymbolUpd "a", collectFloorSymbolUpd "b"]
        { val := .json (.doc defaultState), writeFails := false,
          hasChannel := true, sent := [] } = .ok w' ∧
      w'.val = .json (.doc
        ([collectFloorSymbolUpd "a", collectFloorSymbolUpd "b"].foldl
          (fun a f => f a) defaultState)) :=
  c7_single_context_fold _ defaultState _ rfl rfl

-- ══════════════════════════════════════════════════════════════════════
-- Claim C8 — send / onMessage envelope fidelity and self-exclusion
-- ══════════════════════════════════════════════════════════════════════

/-- C8: a `send(type, payload, fromTab)` call, on either transport (with
the fallback write succeeding), delivers to a registered handler in any
other context exactly one envelope whose `type` and `payload` are
identical to the sent ones (the fallback's per-send nonce is stripped by
the listener before delivery), and the sending context's own handler
receives nothing. -/
theorem c8_send_fidelity (type : String) (payload : Payload) (ft : Option Int)
    (nonce : Nat) (cw : ChanWorld) (sender receiver : Nat)
    (hne : receiver ≠ sender) (hq : cw.quotaFails = false) :
    handlerReceives sender receiver (channelSendEv type payload ft nonce cw).2
      = [{ type := type, fromTab := ft, payload := payload }] ∧
    handlerReceives sender sender (channelSendEv type payload ft nonce cw).2 = [] := by
  cases cw with
  | mk hbc bcp ls qf =>
      simp only at hq
      subst hq
      cases hbc <;>
        simp [channelSendEv, lsFallbackPost, handlerReceives, lsHandlerParse, hne]

/-- Witness for C8 at a concrete fallback-transport send. -/
theorem c8_witness :
    handlerReceives 0 1 (channelSendEv "PUZZLE_SOLVED" (.completed 2) (some 2) 7
        { hasBroadcastChannel := false, bcPosted := [], lsSlot := none,
          quotaFails := false }).2
      = [{ type := "PUZZLE_SOLVED", fromTab := some 2, payload := .completed 2 }] ∧
    handlerReceives 0 0 (channelSendEv "PUZZLE_SOLVED" (.completed 2) (some 2) 7
        { hasBroadcastChannel := false, bcPosted := [], lsSlot := none,
          quotaFails := false }).2 = [] :=
  c8_send_fidelity "PUZZLE_SOLVED" (.completed 2) (some 2) 7 _ 0 1 (by decide) rfl

-- ══════════════════════════════════════════════════════════════════════
-- Claim C9 — onMessage TypeError
-- ══════════════════════════════════════════════════════════════════════

/-- C9 counterexample: `onMessage` is not the one operation of this layer
that surfaces an error to its caller — at a concrete quota-exceeded
store, `setState` also surfaces an (uncaught) error to its caller. -/
theorem c9_not_unique_counterexample :
    onMessageRegister (.nonFunc 0) [] = .error .typeError ∧
    setStateW (liftUpd id) none
      { val := .json (.doc defaultState), writeFails := true,
        hasChannel := false, sent := [] }
      = .error .quota :=
  ⟨rfl, rfl⟩

/-- C9 (amended): calling `onMessage(callback)` with a non-function
argument always throws a `TypeError` to the caller — it is the message
bus's only deliberate throw, but not the only error the layer can
surface, since store write failures also propagate uncaught out of
`setState`. -/
theorem c9_onmessage_typeerror :
    (∀ (tag : Nat) (ls : List Nat),
       onMessageRegister (.nonFunc tag) ls = .error .typeError) ∧
    (∀ (f : GameState → GameState) (ft : Option Int) (w : StoreWorld) (s : GameState),
       w.val = .json (.doc s) → w.writeFails = true →
       setStateW (liftUpd f) ft w = .error .quota) :=
  ⟨fun _ _ => rfl, fun f ft w s hval hwf => setStateW_quota f ft w s hval hwf⟩

/-- Witness for C9 (amended) at concrete inputs. -/
theorem c9_witness :
    onMessageRegister (.nonFunc 3) [5] = .error .typeError ∧
    setStateW (liftUpd id) (some 1)
      { val := .json (.doc defaultState), writeFails := true,
        hasChannel := true, sent := [] }
      = .error .quota :=
  ⟨c9_onmessage_typeerror.1 3 [5],
   c9_onmessage_typeerror.2 id (some 1) _ defaultState rfl rfl⟩

-- ══════════════════════════════════════════════════════════════════════
-- Claim C10 — missing tab record: getTabState null, updateTabState creates
-- ══════════════════════════════════════════════════════════════════════

/-- C10: for a tabId with no record in the persisted document,
`getTabState(tabId)` returns null (`none`) rather than throwing, and
`updateTabState(tabId, updates)` silently creates `tabs[tabId]` as a new
record containing exactly the key/value pairs of `updates`. -/
theorem c10_missing_tab (tabId : Int) (u : TabRecord) (w : StoreWorld)
    (s : GameState)
    (hval : w.val = .json (.doc s)) (hwf : w.writeFails = false)
    (hmiss : lookupTab s.tabs (toString tabId) = none) :
    getTabStateW tabId w = .ok (none, w) ∧
    ∃ w', updateTabStateW tabId u w
        = .ok (.doc (applyTabUpdate s (toString tabId) u), w') ∧
      lookupTab (applyTabUpdate s (toString tabId) u).tabs (toString tabId)
        = some u := by
  constructor
  · cases w with
    | mk v wf hc st =>
        simp only at hval hwf
        subst hval hwf
        show Except.ok (lookupTab s.tabs (toString tabId),
          StoreWorld.mk (.json (.doc s)) false hc st) = _
        rw [hmiss]
  · refine ⟨_, updateTabStateW_doc tabId u w s hval hwf, ?_⟩
    simp [applyTabUpdate, lookupTab_insertTab_self, hmiss, mergeTab]

/-- Witness for C10 at the concrete absent tab id 7. -/
theorem c10_witness :
    getTabStateW 7 { val := .json (.doc defaultState), writeFails := false,
                     hasChannel := true, sent := [] }
      = .ok (none, { val := .json (.doc defaultState), writeFails := false,
                     hasChannel := true, sent := [] }) ∧
    ∃ w', updateTabStateW 7 { puzzleSolved := some true }
        { val := .json (.doc defaultState), writeFails := false,
          hasChannel := true, sent := [] }
        = .ok (.doc (applyTabUpdate defaultState (toString (7 : Int))
                      { puzzleSolved := some true }), w') ∧
      lookupTab (applyTabUpdate defaultState (toString (7 : Int))
                  { puzzleSolved := some true }).tabs (toString (7 : Int))
        = some { puzzleSolved := some true } :=
  c10_missing_tab 7 { puzzleSolved := some true } _ defaultState rfl rfl (by decide)

-- ══════════════════════════════════════════════════════════════════════
-- Claim C1 — end-to-end backtrack trigger propagation
-- ══════════════════════════════════════════════════════════════════════

theorem docTab1State_json (w : StoreWorld) (s : GameState)
    (hval : w.val = .json (.doc s)) :
    docTab1State w = (lookupTab s.tabs "1").bind TabRecord.state := by
  cases w with
  | mk v wf hc st =>
      simp only at hval
      subst hval
      rfl

/-- Evaluation of the level-1 message handler on the tab-3 backtrack
envelope over a world holding a valid document with succeeding writes:
it persists `state: 'illuminated'` and `floorRevealed: true` into the
tab-1 record and fires the cleanup / return-setup / deferred-narrator
effects. -/
theorem level1OnMessageW_backtrack (tl : Bool) (fl : L1Flags)
    (w : StoreWorld) (s : GameState)
    (hval : w.val = .json (.doc s)) (hwf : w.writeFails = false) :
    level1OnMessageW tl backtrackEnvelopeTo1 fl w
      = .ok (fl,
             broadcastW { w with val := .json (.doc (applyTabUpdate s "1" illumUpdate)) }
               (some 1) (.doc (applyTabUpdate s "1" illumUpdate)),
             [.cleanupFirstVisit, .setupReturn, .deferNarrator]) := by
  cases w with
  | mk v wf hc st =>
      simp only at hval hwf
      subst hval hwf
      rfl

theorem level1Load_doc (w : StoreWorld) (s : GameState) (m : L1Mode)
    (hval : w.val = .json (.doc s)) (hm : level1InitMode s = .ok m) :
    level1Load w = .ok (m, w) := by
  cases w with
  | mk v wf hc st =>
      simp only at hval
      subst hval
      show (level1InitMode s).bind _ = _
      rw [hm]
      rfl

/-- C1: context A (tab 3) persists `mergeField('3', {backtrackedTo1:
true})` and sends `BACKTRACK_TRIGGER` with `targetTab 1`; the envelope
reaches the registered handler of any distinct live context; a live
tab-1 context B receiving it transitions the persisted tab-1 record's
`state` from `'visited'` to `'illuminated'`; any further live tab-1
context receiving the same envelope leaves the record `'illuminated'`;
and a context C freshly loading afterwards reads `'illuminated'` from
the persisted document and independently selects the return-visit
(illuminated) mode. -/
theorem c1_backtrack_end_to_end
    (s : GameState) (r1 : TabRecord) (w : StoreWorld) (fl : L1Flags)
    (tl : Bool) (aCtx bCtx : Nat)
    (hval : w.val = .json (.doc s)) (hwf : w.writeFails = false)
    (h1 : lookupTab s.tabs "1" = some r1)
    (hvis : r1.state = some "visited")
    (hgc : s.meta.gameComplete = false)
    (hctx : bCtx ≠ aCtx) :
    handlerReceives aCtx bCtx (some (.bc backtrackEnvelopeTo1))
        = [backtrackEnvelopeTo1] ∧
    ∃ v1 w1, level3BacktrackStoreWrite w = .ok (v1, w1) ∧
      docTab1State w1 = some "visited" ∧
      ∃ fl2 w2 es, level1OnMessageW tl backtrackEnvelopeTo1 fl w1
          = .ok (fl2, w2, es) ∧
        docTab1State w2 = some "illuminated" ∧
        (∃ fl3 w3 es', level1OnMessageW tl backtrackEnvelopeTo1 fl w2
            = .ok (fl3, w3, es') ∧ docTab1State w3 = some "illuminated") ∧
        level1Load w2 = .ok (.returnVisit, w2) := by
  have hrecv : handlerReceives aCtx bCtx (some (.bc backtrackEnvelopeTo1))
      = [backtrackEnvelopeTo1] := by
    simp [handlerReceives, hctx]
  -- context A's persisted merge
  have hA := updateTabStateW_doc 3 { backtrackedTo1 := some true } w s hval hwf
  set s3 : GameState :=
    applyTabUpdate s (toString (3 : Int)) { backtrackedTo1 := some true } with hs3
  set w1 : StoreWorld :=
    broadcastW { w with val := .json (.doc s3) } (some 3) (.doc s3) with hw1
  have hw1val : w1.val = .json (.doc s3) := by
    rw [hw1, broadcastW_val]
  have hw1wf : w1.writeFails = false := by
    rw [hw1, broadcastW_writeFails]
    exact hwf
  have hlook3 : lookupTab s3.tabs "1" = some r1 := by
    rw [hs3]
    show lookupTab (insertTab s.tabs (toString (3 : Int)) _) "1" = _
    rw [lookupTab_insertTab_ne _ _ _ _ (by decide)]
    exact h1
  -- context B's receipt
  have hB := level1OnMessageW_backtrack tl fl w1 s3 hw1val hw1wf
  set s4 : GameState := applyTabUpdate s3 "1" illumUpdate with hs4
  set w2 : StoreWorld :=
    broadcastW { w1 with val := .json (.doc s4) } (some 1) (.doc s4) with hw2
  have hw2val : w2.val = .json (.doc s4) := by
    rw [hw2, broadcastW_val]
  have hw2wf : w2.writeFails = false := by
    rw [hw2, broadcastW_writeFails]
    exact hw1wf
  have htabs4 : s4.tabs = insertTab s3.tabs "1" (mergeTab (some r1) illumUpdate) := by
    rw [hs4]
    show insertTab s3.tabs "1" (mergeTab (lookupTab s3.tabs "1") illumUpdate) = _
    rw [hlook3]
  have hlook4 : lookupTab s4.tabs "1" = some (mergeTab (some r1) illumUpdate) := by
    rw [htabs4, lookupTab_insertTab_self]
  have hstate4 : (mergeTab (some r1) illumUpdate).state = some "illuminated" := rfl
  have hmeta4 : s4.meta.gameComplete = false := by
    rw [hs4, applyTabUpdate_meta, hs3, applyTabUpdate_meta]
    exact hgc
  -- a second live tab-1 context receiving the same envelope
  have hB' := level1OnMessageW_backtrack tl fl w2 s4 hw2val hw2wf
  set s5 : GameState := applyTabUpdate s4 "1" illumUpdate with hs5
  have htabs5 : s5.tabs
      = insertTab s4.tabs "1"
          (mergeTab (some (mergeTab (some r1) illumUpdate)) illumUpdate) := by
    rw [hs5]
    show insertTab s4.tabs "1" (mergeTab (lookupTab s4.tabs "1") illumUpdate) = _
    rw [hlook4]
  -- context C loading afterwards
  have hinit : level1InitMode s4 = .ok .returnVisit := by
    simp [level1InitMode, hlook4, hmeta4, hstate4]
  refine ⟨hrecv, _, w1, hA, ?_, fl, w2, _, hB, ?_, ⟨fl, _, _, hB', ?_⟩, ?_⟩
  · rw [docTab1State_json w1 s3 hw1val, hlook3]
    exact hvis
  · rw [docTab1State_json w2 s4 hw2val, hlook4]
    exact hstate4
  · have hval3 : (broadcastW { w2 with val := .json (.doc s5) }
        (some 1) (.doc s5)).val = .json (.doc s5) := by
      rw [broadcastW_val]
    rw [docTab1State_json _ s5 hval3, htabs5, lookupTab_insertTab_self]
    rfl
  · exact level1Load_doc w2 s4 .returnVisit hw2val hinit

/-- Witness for C1 at a concrete document whose tab-1 record is
`'visited'`, with contexts A = 0 and B = 1. -/
theorem c1_witness :
    handlerReceives 0 1 (some (.bc backtrackEnvelopeTo1)) = [backtrackEnvelopeTo1] ∧
    ∃ v1 w1, level3BacktrackStoreWrite
        { val := .json (.doc visitedTab1Doc), writeFails := false,
          hasChannel := true, sent := [] } = .ok (v1, w1) ∧
      docTab1State w1 = some "visited" ∧
      ∃ fl2 w2 es, level1OnMessageW false backtrackEnvelopeTo1
          (initialL1Flags visitedTab1Doc) w1 = .ok (fl2, w2, es) ∧
        docTab1State w2 = some "illuminated" ∧
        (∃ fl3 w3 es', level1OnMessageW false backtrackEnvelopeTo1
            (initialL1Flags visitedTab1Doc) w2 = .ok (fl3, w3, es') ∧
          docTab1State w3 = some "illuminated") ∧
        level1Load w2 = .ok (.returnVisit, w2) :=
  c1_backtrack_end_to_end visitedTab1Doc
    { visitCount := some 0, state := some "visited", puzzleSolved := some false,
      symbolsFound := some [], floorRevealed := some false }
    _ (initialL1Flags visitedTab1Doc) false 0 1 rfl rfl (by decide) rfl rfl (by decide)

-- ══════════════════════════════════════════════════════════════════════
-- Claim C2 — forward-only states, append-only collections
-- ══════════════════════════════════════════════════════════════════════

/-- C2 counterexample: the per-tab `state` field does not only advance
forward.  On a document whose tab-1 record has reached the
post-completion phase `'3d'` (phase index 3), a (duplicated or late)
BACKTRACK_TRIGGER envelope handled by the still-registered level-1
handler unconditionally rewrites it to `'illuminated'` (phase index 2) —
a regression. -/
theorem c2_regression_counterexample :
    statePhase (docTab1State threeDWorld) = some 3 ∧
    (level1OnMessageW false backtrackEnvelopeTo1 (initialL1Flags threeDTab1Doc)
        threeDWorld).map (fun r => statePhase (docTab1State r.2.1))
      = .ok (some 2) :=
  ⟨rfl, rfl⟩

/-- C2 (amended): the append-only collections (`player.codeFragments`,
`player.mindFragments`, `tabs['4'].fragmentsCollected`) never gain
duplicate entries and never shrink under their collection operations,
which also leave the tab records untouched; and every per-tab `state`
write of the layer advances the phase forward provided the record has
not already advanced past the write's target phase — the tab-1
illumination write (target phase 2) regresses a `'3d'` record, which is
the single exception the counterexample exhibits. -/
theorem c2_forward_and_append_only :
    (∀ (s : GameState) (sym : String),
       (collectFloorSymbolUpd sym s).tabs = s.tabs ∧
       s.player.codeFragments <+: (collectFloorSymbolUpd sym s).player.codeFragments ∧
       (s.player.codeFragments.Nodup →
         (collectFloorSymbolUpd sym s).player.codeFragments.Nodup)) ∧
    (∀ (s : GameState) (fid : String),
       (collectMindFragmentUpd fid s).tabs = s.tabs ∧
       s.player.mindFragments <+: (collectMindFragmentUpd fid s).player.mindFragments ∧
       (s.player.mindFragments.Nodup →
         (collectMindFragmentUpd fid s).player.mindFragments.Nodup)) ∧
    (∀ (s : GameState) (fid : String),
       tab4Fragments s <+: tab4Fragments (level4CollectFragmentUpd fid s) ∧
       ((tab4Fragments s).Nodup →
         (tab4Fragments (level4CollectFragmentUpd fid s)).Nodup)) ∧
    (∀ (s : GameState) (r : TabRecord) (p : Nat),
       lookupTab s.tabs "1" = some r → statePhase r.state = some p → p ≤ 2 →
       statePhase ((lookupTab (applyTabUpdate s "1" illumUpdate).tabs "1").bind
           TabRecord.state) = some 2 ∧ p ≤ 2) ∧
    (∀ (s : GameState) (r : TabRecord) (p : Nat),
       lookupTab s.tabs "4" = some r → statePhase r.state = some p → p ≤ 1 →
       statePhase ((lookupTab (applyTabUpdate s "4"
           { state := some "visited" }).tabs "4").bind TabRecord.state)
         = some 1 ∧ p ≤ 1) ∧
    (∀ (s : GameState) (r : TabRecord) (p : Nat),
       lookupTab s.tabs "1" = some r → statePhase r.state = some p →
       statePhase ((lookupTab (applyTabUpdate s "1"
           { state := some "3d" }).tabs "1").bind TabRecord.state)
         = some 3 ∧ p ≤ 3) := by
  refine ⟨?_, ?_, ?_, ?_, ?_, ?_⟩
  · intro s sym
    unfold collectFloorSymbolUpd
    by_cases h : sym ∈ s.player.codeFragments
    · rw [if_pos h]
      exact ⟨rfl, List.prefix_refl _, id⟩
    · rw [if_neg h]
      refine ⟨rfl, List.prefix_append _ _, fun hn => ?_⟩
      simp [List.nodup_append, hn, h]
  · intro s fid
    unfold collectMindFragmentUpd
    by_cases h : fid ∈ s.player.mindFragments
    · rw [if_pos h]
      exact ⟨rfl, List.prefix_refl _, id⟩
    · rw [if_neg h]
      refine ⟨rfl, List.prefix_append _ _, fun hn => ?_⟩
      simp [List.nodup_append, hn, h]
  · intro s fid
    cases hl : lookupTab s.tabs "4" with
    | none =>
        have ht : tab4Fragments s = [] := by
          simp [tab4Fragments, hl]
        have ht2 : tab4Fragments (level4CollectFragmentUpd fid s) = [fid] := by
          simp [tab4Fragments, level4CollectFragmentUpd, hl, lookupTab_insertTab_self]
        rw [ht, ht2]
        exact ⟨by simp, fun _ => by simp⟩
    | some t0 =>
        have ht : tab4Fragments s = t0.fragmentsCollected.getD [] := by
          simp [tab4Fragments, hl]
        by_cases h : fid ∈ t0.fragmentsCollected.getD []
        · have ht2 : tab4Fragments (level4CollectFragmentUpd fid s)
              = t0.fragmentsCollected.getD [] := by
            simp [tab4Fragments, level4CollectFragmentUpd, hl, lookupTab_insertTab_self, h]
          rw [ht, ht2]
          exact ⟨List.prefix_refl _, id⟩
        · have ht2 : tab4Fragments (level4CollectFragmentUpd fid s)
              = t0.fragmentsCollected.getD [] ++ [fid] := by
            simp [tab4Fragments, level4CollectFragmentUpd, hl, lookupTab_insertTab_self, h]
          rw [ht, ht2]
          refine ⟨List.prefix_append _ _, fun hn => ?_⟩
          simp [List.nodup_append, hn, h]
  · intro s r p hl hp hle
    have ht : (applyTabUpdate s "1" illumUpdate).tabs
        = insertTab s.tabs "1" (mergeTab (some r) illumUpdate) := by
      show insertTab s.tabs "1" (mergeTab (lookupTab s.tabs "1") illumUpdate) = _
      rw [hl]
    rw [ht, lookupTab_insertTab_self]
    exact ⟨rfl, hle⟩
  · intro s r p hl hp hle
    have ht : (applyTabUpdate s "4" { state := some "visited" }).tabs
        = insertTab s.tabs "4" (mergeTab (some r) { state := some "visited" }) := by
      show insertTab s.tabs "4" (mergeTab (lookupTab s.tabs "4") _) = _
      rw [hl]
    rw [ht, lookupTab_insertTab_self]
    exact ⟨rfl, hle⟩
  · intro s r p hl hp
    have ht : (applyTabUpdate s "1" { state := some "3d" }).tabs
        = insertTab s.tabs "1" (mergeTab (some r) { state := some "3d" }) := by
      show insertTab s.tabs "1" (mergeTab (lookupTab s.tabs "1") _) = _
      rw [hl]
    rw [ht, lookupTab_insertTab_self]
    exact ⟨rfl, statePhase_le_three r.state p hp⟩

/-- Witness for C2 (amended) at concrete documents and collection ids. -/
theorem c2_witness :
    (collectFloorSymbolUpd "q" defaultState).tabs = defaultState.tabs ∧
    defaultState.player.codeFragments
      <+: (collectFloorSymbolUpd "q" defaultState).player.codeFragments ∧
    (collectFloorSymbolUpd "q" defaultState).player.codeFragments.Nodup ∧
    (collectMindFragmentUpd "m" defaultState).player.mindFragments.Nodup ∧
    tab4Fragments defaultState <+: tab4Fragments (level4CollectFragmentUpd "f" defaultState) ∧
    (tab4Fragments (level4CollectFragmentUpd "f" defaultState)).Nodup ∧
    statePhase ((lookupTab (applyTabUpdate visitedTab1Doc "1" illumUpdate).tabs "1").bind
        TabRecord.state) = some 2 ∧
    statePhase ((lookupTab (applyTabUpdate defaultState "4"
        { state := some "visited" }).tabs "4").bind TabRecord.state) = some 1 ∧
    statePhase ((lookupTab (applyTabUpdate illumDoneDoc "1"
        { state := some "3d" }).tabs "1").bind TabRecord.state) = some 3 := by
  obtain ⟨h1, h2, h3, h4, h5, h6⟩ := c2_forward_and_append_only
  exact ⟨(h1 defaultState "q").1, (h1 defaultState "q").2.1,
    (h1 defaultState "q").2.2 (by decide),
    (h2 defaultState "m").2.2 (by decide),
    (h3 defaultState "f").1, (h3 defaultState "f").2 (by decide),
    (h4 visitedTab1Doc
      { visitCount := some 0, state := some "visited", puzzleSolved := some false,
        symbolsFound := some [], floorRevealed := some false }
      1 (by decide) rfl (by decide)).1,
    (h5 defaultState
      { visitCount := some 0, state := some "unvisited",
        fragmentsCollected := some [] }
      0 (by decide) rfl (by decide)).1,
    (h6 illumDoneDoc
      { visitCount := some 0, state := some "illuminated", puzzleSolved := some false,
        symbolsFound := some [], floorRevealed := some true }
      2 (by decide) rfl).1⟩

-- ══════════════════════════════════════════════════════════════════════
-- Claim C3 — idempotent envelope-triggered transitions
-- ══════════════════════════════════════════════════════════════════════

/-- C3 counterexample: the tab-1 illumination transition checks no
persisted "already applied" flag.  Concretely: (1) on a document whose
transition was already applied and which has advanced to `'3d'`,
re-delivery of the BACKTRACK_TRIGGER envelope mutates the persisted
document again (back to `'illuminated'`) — not a no-op; (2) on a
document where the illumination is already applied, re-delivery still
fires the one-shot cleanup / setup / narrator side effects. -/
theorem c3_reapply_counterexample :
    docTab1State threeDWorld = some "3d" ∧
    (level1OnMessageW false backtrackEnvelopeTo1 (initialL1Flags threeDTab1Doc)
        threeDWorld).map (fun r => docTab1State r.2.1) = .ok (some "illuminated") ∧
    (level1OnMessageW false backtrackEnvelopeTo1 (initialL1Flags illumDoneDoc)
        illumDoneWorld).map (fun r => r.2.2)
      = .ok [.cleanupFirstVisit, .setupReturn, .deferNarrator] :=
  ⟨rfl, rfl, rfl⟩

/-- C3 (amended): the bonus-symbol placement transition is guarded by the
persisted `tabs['1'].bonusSymbol` flag: invoking it twice in direct
succession (duplicate envelope delivery) records exactly one placement
in the persisted document — the second invocation leaves the document
unchanged — and re-application after the flag is set is a complete
no-op (no store write, no broadcast, no effects).  The illumination
transition's store write is idempotent on the persisted document
(applying the merge twice equals applying it once), but it checks no
flag, so its setup side effects re-fire on every delivery (as the
counterexample shows) and it is not a no-op on records past
`'illuminated'`. -/
theorem c3_oneshot_idempotence :
    (∀ (fl : L1Flags) (w : StoreWorld) (s : GameState),
       w.val = .json (.doc s) → w.writeFails = false →
       fl.bonusSymbolCollected = false →
       ∃ w1, placeBonusW fl w
           = .ok ({ fl with bonusSymbolPlaced := true }, w1, [.placeBonus]) ∧
         w1.val = .json (.doc (applyTabUpdate s (toString (1 : Int))
             { bonusSymbolAvailable := some true })) ∧
         ∃ w2, placeBonusW { fl with bonusSymbolPlaced := true } w1
             = .ok ({ fl with bonusSymbolPlaced := true }, w2, [.placeBonus]) ∧
           w2.val = w1.val) ∧
    (∀ (fl : L1Flags) (w : StoreWorld), fl.bonusSymbolCollected = true →
       placeBonusW fl w = .ok (fl, w, [])) ∧
    (∀ (s : GameState),
       applyTabUpdate (applyTabUpdate s "1" illumUpdate) "1" illumUpdate
         = applyTabUpdate s "1" illumUpdate) := by
  refine ⟨?_, ?_, ?_⟩
  · intro fl w s hval hwf hcol
    have h1 := updateTabStateW_doc 1 { bonusSymbolAvailable := some true } w s hval hwf
    set s1 : GameState :=
      applyTabUpdate s (toString (1 : Int)) { bonusSymbolAvailable := some true } with hs1
    set w1 : StoreWorld :=
      broadcastW { w with val := .json (.doc s1) } (some 1) (.doc s1) with hw1
    have hw1val : w1.val = .json (.doc s1) := by
      rw [hw1, broadcastW_val]
    have hw1wf : w1.writeFails = false := by
      rw [hw1, broadcastW_writeFails]
      exact hwf
    have hp1 : placeBonusW fl w
        = .ok ({ fl with bonusSymbolPlaced := true }, w1, [.placeBonus]) := by
      unfold placeBonusW
      rw [if_neg (by simp [hcol])]
      rw [h1]
      rfl
    have h2 := updateTabStateW_doc 1 { bonusSymbolAvailable := some true } w1 s1 hw1val hw1wf
    have hidem : applyTabUpdate s1 (toString (1 : Int)) { bonusSymbolAvailable := some true }
        = s1 := by
      rw [hs1]
      exact applyTabUpdate_idem s (toString (1 : Int)) _
    rw [hidem] at h2
    have hp2 : placeBonusW { fl with bonusSymbolPlaced := true } w1
        = .ok ({ fl with bonusSymbolPlaced := true },
               broadcastW { w1 with val := .json (.doc s1) } (some 1) (.doc s1),
               [.placeBonus]) := by
      unfold placeBonusW
      rw [if_neg (by simp [hcol])]
      rw [h2]
      rfl
    refine ⟨w1, hp1, hw1val, _, hp2, ?_⟩
    rw [broadcastW_val]
    exact hw1val.symm
  · intro fl w hcol
    unfold placeBonusW
    rw [if_pos (by simp [hcol])]
  · intro s
    exact applyTabUpdate_idem s "1" illumUpdate

/-- Witness for C3 (amended) at a concrete document and flag states. -/
theorem c3_witness :
    (∃ w1, placeBonusW (initialL1Flags visitedTab1Doc)
        { val := .json (.doc visitedTab1Doc), writeFails := false,
          hasChannel := true, sent := [] }
        = .ok ({ initialL1Flags visitedTab1Doc with bonusSymbolPlaced := true },
               w1, [.placeBonus]) ∧
      w1.val = .json (.doc (applyTabUpdate visitedTab1Doc (toString (1 : Int))
          { bonusSymbolAvailable := some true })) ∧
      ∃ w2, placeBonusW { initialL1Flags visitedTab1Doc with bonusSymbolPlaced := true } w1
          = .ok ({ initialL1Flags visitedTab1Doc with bonusSymbolPlaced := true },
                 w2, [.placeBonus]) ∧
        w2.val = w1.val) ∧
    placeBonusW { bonusSymbolPlaced := true, bonusSymbolCollected := true, entered3D := false }
        { val := .json (.doc illumDoneDoc), writeFails := false,
          hasChannel := true, sent := [] }
      = .ok ({ bonusSymbolPlaced := true, bonusSymbolCollected := true, entered3D := false },
             { val := .json (.doc illumDoneDoc), writeFails := false,
               hasChannel := true, sent := [] }, []) ∧
    applyTabUpdate (applyTabUpdate defaultState "1" illumUpdate) "1" illumUpdate
      = applyTabUpdate defaultState "1" illumUpdate :=
  ⟨c3_oneshot_idempotence.1 (initialL1Flags visitedTab1Doc) _ visitedTab1Doc rfl rfl rfl,
   c3_oneshot_idempotence.2.1 _ _ rfl,
   c3_oneshot_idempotence.2.2 defaultState⟩
